import Mathlib

/-!
Shallow embedding of src/mapproxy/source/mapnik.py.

The file models the MapnikSource class of that module: the process-global
handle registry (_map_objs, _map_loading), the acquisition protocol
MapnikSource.map_obj, the render worker MapnikSource._render_mapfile and the
pipeline entry MapnikSource.get_map.  External collaborators (the mapnik
binding, the guards, the tile-grid resolver) enter the model as explicit
parameters, following the interface boundary drawn by the specification.
Line numbers in the comments refer to src/mapproxy/source/mapnik.py.
-/

namespace MapnikPy

/-- Exceptions that can cross the functions of this module.  attributeError
models a Python AttributeError on a missing attribute, nameError a NameError
on an unresolvable global, keyError a dict lookup miss, runtimeError the
RuntimeError raised by the mapnik binding, sourceError the mapproxy
SourceError, blankImage the mapproxy BlankImage signal, and otherError any
further exception class an external call may raise. -/
inductive PyExc where
  | attributeError (n : String)
  | nameError (n : String)
  | keyError
  | runtimeError (msg : String)
  | sourceError (msg : String)
  | blankImage
  | otherError (msg : String)
  deriving DecidableEq

/-- Result of running a code path: a returned value, a raised exception, or
blocking forever on a synchronization primitive that nobody will signal. -/
inductive Outcome (α : Type) where
  | ok (a : α)
  | raised (e : PyExc)
  | blocked
  deriving DecidableEq

/-- Names bound at module scope of mapproxy/source/mapnik.py: the imports of
lines 18-31, the mapnik binding of lines 33-45, and the definitions of
lines 47-50.  The name proc is bound nowhere in the module. -/
def moduleGlobals : List String :=
  ["sys", "time", "threading", "multiprocessing", "tile_grid", "ImageSource",
   "ImageOptions", "MapExtent", "DefaultMapExtent", "BlankImage", "MapLayer",
   "SourceError", "log_request", "reraise_exception", "run_non_blocking",
   "BytesIO", "mapnik", "logging", "log", "MapnikSource"]

/-- Builtin names the module body uses. -/
def builtinNames : List String := ["print", "str", "len"]

/-- Python name resolution for a global reference inside this module. -/
def resolvesGlobal (n : String) : Bool :=
  moduleGlobals.contains n || builtinNames.contains n

/-- Attribute names a threading.Thread instance exposes, in Python 2 and 3
alike: the lifecycle methods, the name and daemon accessors and the ident
property.  get_ident is a function of the threading module (thread module in
Python 2), never an attribute of Thread in any Python version, so the
expression threading.current_thread().get_ident at line 102 raises
AttributeError. -/
def threadAttrNames : List String :=
  ["start", "run", "join", "is_alive", "isAlive", "ident", "name", "getName",
   "setName", "daemon", "isDaemon", "setDaemon"]

/-- Attribute resolution on a threading.Thread instance. -/
def resolvesThreadAttr (n : String) : Bool := threadAttrNames.contains n

/-- Ambient execution context of a call: the tuple
multiprocessing.current_process()._identity that line 103 would read, and
the identity of the Thread object returned by threading.current_thread()
at line 102. -/
structure ExecCtx where
  processIdentity : List Nat
  threadObj : Nat
  deriving DecidableEq

/-- Cache key that line 104 would build: (process_id, thread_id, mapfile).
The source never reaches line 104 - the attribute lookup of line 102 raises
AttributeError first - so the key exists only in the unreachable
translation; its thread component stands in for the never-produced value of
line 102, taken from the Thread object identity. -/
structure CacheKey where
  processId : List Nat
  threadId : Nat
  mapfile : String
  deriving DecidableEq

/-- Key computation of lines 103-104, unreachable in the source. -/
def cachekey (ctx : ExecCtx) (mapfile : String) : CacheKey :=
  ⟨ctx.processIdentity, ctx.threadObj, mapfile⟩

/-- Mapnik layer: the source touches only its name attribute (line 148). -/
structure Layer where
  name : String
  deriving DecidableEq

/-- Mapnik map handle.  The model keeps the pieces of state the source reads
or writes: the layer list (lines 145-151) and the per-render view
configuration set by resize, srs assignment and zoom_to_box (lines 138-141).
hid identifies the underlying native object. -/
structure Handle where
  hid : Nat
  layers : List Layer
  width : Nat
  height : Nat
  srs : String
  viewport : Int × Int × Int × Int
  deriving DecidableEq

/-- The module-global registry: _map_objs maps cache keys to loaded handles,
_map_loading maps cache keys to their threading.Event, modelled by the flag
event.is_set(). -/
structure RegistryState where
  mapObjs : List (CacheKey × Handle)
  mapLoading : List (CacheKey × Bool)
  deriving DecidableEq

/-- Python dict lookup d[k] restricted to the key types this module uses. -/
def lookupHandle : List (CacheKey × Handle) → CacheKey → Option Handle
  | [], _ => none
  | (k, v) :: rest, key => if k = key then some v else lookupHandle rest key

/-- Python dict lookup for the _map_loading table. -/
def lookupEvent : List (CacheKey × Bool) → CacheKey → Option Bool
  | [], _ => none
  | (k, v) :: rest, key => if k = key then some v else lookupEvent rest key

/-- Python dict assignment d[k] = v for the _map_objs table. -/
def setHandle : List (CacheKey × Handle) → CacheKey → Handle → List (CacheKey × Handle)
  | [], key, v => [(key, v)]
  | (k, w) :: rest, key, v =>
    if k = key then (key, v) :: rest else (k, w) :: setHandle rest key v

/-- Python dict assignment d[k] = v for the _map_loading table. -/
def setEvent : List (CacheKey × Bool) → CacheKey → Bool → List (CacheKey × Bool)
  | [], key, v => [(key, v)]
  | (k, w) :: rest, key, v =>
    if k = key then (key, v) :: rest else (k, w) :: setEvent rest key v

/-- MapnikSource.__init__, lines 61-66: every construction of a MapnikSource
rebinds the module globals _map_objs and _map_loading to fresh empty dicts
and installs a fresh lock, discarding whatever the previous tables held. -/
def mapnikSource_init (_prev : RegistryState) : RegistryState :=
  ⟨[], []⟩

/-- Invocation counters for the external engine binding: handle constructions
(mapnik.Map plus mapnik.load_map, lines 114-117), per-render view
configuration passes (lines 138-141), draw calls (mapnik.render,
lines 156-159) and mapnik.clear_cache calls (line 126). -/
structure CallCounts where
  ctorCalls : Nat
  configureCalls : Nat
  drawCalls : Nat
  clearCacheCalls : Nat
  deriving DecidableEq

/-- Result of one MapnikSource.map_obj call. -/
structure AcquireResult where
  outcome : Outcome Handle
  state : RegistryState
  counts : CallCounts
  deriving DecidableEq

/-- MapnikSource.map_obj, lines 101-129.  ctor models the external
construction mapnik.Map(0, 0) followed by mapnik.load_map(m, str(mapfile)):
it yields a loaded handle or raises a RuntimeError message.

Line 102 evaluates threading.current_thread().get_ident.  The Thread class
has no get_ident attribute (see threadAttrNames), so every call raises
AttributeError here - before the key of line 104 is built, before line 110
stores an Event, before the print of line 112 and before the waiting branch
of lines 123-129.  The function has no handler, so the exception propagates
with the registry untouched and no engine call made; lines 103-129 are
unreachable.

The branch guarded by resolvesThreadAttr "get_ident" translates the
unreachable lines 103-129 for reference.  Fresh-key path (lines 109-122):
line 110 stores a new, unset threading.Event; inside the lock, line 112
evaluates the arguments of print(..., proc, _map_objs), whose fourth
argument proc resolves nowhere in the module, ahead of the constructor of
lines 114-117.  Present-key path (lines 123-129): wait on the event
(blocking forever if nobody ever set it), then call mapnik.clear_cache()
once (line 126) and return _map_objs[cachekey]. -/
def map_obj (ctor : String → Except String Handle) (ctx : ExecCtx)
    (s : RegistryState) (mapfile : String) : AcquireResult :=
  if resolvesThreadAttr "get_ident" then
    let key := cachekey ctx mapfile
    match lookupEvent s.mapLoading key with
    | none =>
      let s1 : RegistryState := ⟨s.mapObjs, setEvent s.mapLoading key false⟩
      if resolvesGlobal "proc" then
        match ctor mapfile with
        | Except.error msg =>
          ⟨Outcome.raised (PyExc.runtimeError msg), s1, ⟨1, 0, 0, 0⟩⟩
        | Except.ok m =>
          let s2 : RegistryState :=
            ⟨setHandle s1.mapObjs key m, setEvent s1.mapLoading key true⟩
          ⟨Outcome.ok m, s2, ⟨1, 0, 0, 0⟩⟩
      else
        ⟨Outcome.raised (PyExc.nameError "proc"), s1, ⟨0, 0, 0, 0⟩⟩
    | some isSet =>
      if isSet then
        match lookupHandle s.mapObjs key with
        | some m => ⟨Outcome.ok m, s, ⟨0, 0, 0, 1⟩⟩
        | none => ⟨Outcome.raised PyExc.keyError, s, ⟨0, 0, 0, 1⟩⟩
      else
        ⟨Outcome.blocked, s, ⟨0, 0, 0, 0⟩⟩
  else
    ⟨Outcome.raised (PyExc.attributeError "get_ident"), s, ⟨0, 0, 0, 0⟩⟩

/-- Python del m.layers[i]: remove the element at index i (line 149). -/
def delAt : List Layer → Nat → List Layer
  | [], _ => []
  | _ :: rest, 0 => rest
  | l :: rest, Nat.succ n => l :: delAt rest n

/-- Loop of lines 146-151: iterate over the copy m.layers[:] while deleting
from the live list at the running index i every layer whose name is neither
Unkown nor a member of the configured allow-list. -/
def layerLoop (allowed : List String) : List Layer → List Layer → Nat → List Layer
  | [], cur, _ => cur
  | l :: rest, cur, i =>
    if l.name != "Unkown" && !(allowed.contains l.name) then
      layerLoop allowed rest (delAt cur i) i
    else
      layerLoop allowed rest cur (i + 1)

/-- The whole in-place filter of lines 145-151, started with i = 0 on the
copy of the current layer list. -/
def applyLayerFilter (allowed : List String) (ls : List Layer) : List Layer :=
  layerLoop allowed ls ls 0

/-- The read-only query consumed by get_map: bounding box, pixel size,
spatial reference code and output format. -/
structure Query where
  bbox : Int × Int × Int × Int
  size : Nat × Nat
  srs_code : String
  format : String
  deriving DecidableEq

/-- One log_request record (lines 167-168): the identifier string is built
from mapfile, bbox, srs code and size; status is the HTTP-like class; the
byte size is absent when data is falsy.  The wall-clock duration argument is
real time and stays outside the model. -/
structure LogRecord where
  mapfile : String
  bbox : Int × Int × Int × Int
  srs_code : String
  size : Nat × Nat
  status : String
  byteSize : Option Nat
  deriving DecidableEq

/-- The ImageSource value returned at lines 170-171, with the opacity
attribute attached by get_map at line 85. -/
structure ImageResult where
  data : List Nat
  size : Nat × Nat
  format : String
  opacity : Option Nat
  deriving DecidableEq

/-- Result of one pipeline call: outcome, registry state afterwards, the
engine invocation counters and the emitted log records. -/
structure PipelineResult where
  outcome : Outcome ImageResult
  state : RegistryState
  counts : CallCounts
  logs : List LogRecord
  deriving DecidableEq

/-- Configuration of one MapnikSource instance (lines 52-59): the mapfile,
the optional layer allow-list (self.layers = set(layers)), the optional
guards, the optional scale factor and the opacity attached to responses.
The guards are external collaborators, modelled as their verdict functions
res_range.contains(bbox, size, srs) and coverage.intersects(bbox, srs). -/
structure SrcConfig where
  mapfile : String
  layers : Option (List String)
  resRangeContains : Option (Query → Bool)
  coverageIntersects : Option (Query → Bool)
  scale_factor : Option Nat
  opacity : Option Nat

/-- External mapnik binding and tile-grid utility, at the interface boundary
the specification draws: ctor builds a handle from a mapfile or raises
RuntimeError, draw renders a configured handle, encode produces the byte
string img.tostring(format), and resolveTemplate performs the webmercator
template substitution of lines 91-93 through the external tile grid. -/
structure EngineOracle where
  ctor : String → Except String Handle
  draw : Handle → Except PyExc Unit
  encode : Handle → String → Except PyExc (List Nat)
  resolveTemplate : String → Query → String

/-- Python str.lower() on the ASCII srs codes this module handles. -/
def pyLower (s : String) : String :=
  ⟨s.data.map Char.toLower⟩

/-- Substring test over character lists, for the Python in operator. -/
def strContains (hay needle : List Char) : Bool :=
  match hay with
  | [] => needle.isEmpty
  | _ :: rest => needle.isPrefixOf hay || strContains rest needle

/-- Test of line 90: whether the mapfile embeds the webmercator template. -/
def hasWebmercatorTemplate (mapfile : String) : Bool :=
  strContains mapfile.toList "%(webmercator_level)".toList

/-- MapnikSource._render_mapfile, lines 134-171.  Line 135 records the
wall-clock start (outside the model).  Line 137 calls self.map_obj(mapfile)
before the try/finally of lines 144-168, so a failure there propagates
without emitting any log_request record; since map_obj always raises
AttributeError at its line 102, every invocation of this worker fails at
line 137 and the remainder of the body is unreachable, translated here for
reference.  Lines 138-141 configure the handle
in place: resize, srs assignment (with str.lower()), zoom_to_box on the
Box2d built from the query bbox.  Lines 145-151 delete the layers outside
the allow-list in place.  Both mutations act on the very object stored in
_map_objs, so the model writes the mutated handle back to the registry
entry the name m aliases.  Lines 154-161 create the image, draw and encode;
the finally block of lines 163-168 logs status 200 with size = len(data)
when data is truthy, else status 500 with no size (an empty byte string is
falsy in Python and is logged as 500 although the call then returns
normally). -/
def _render_mapfile (cfg : SrcConfig) (oracle : EngineOracle) (ctx : ExecCtx)
    (s : RegistryState) (mapfile : String) (q : Query) : PipelineResult :=
  let acq := map_obj oracle.ctor ctx s mapfile
  match acq.outcome with
  | Outcome.raised e => ⟨Outcome.raised e, acq.state, acq.counts, []⟩
  | Outcome.blocked => ⟨Outcome.blocked, acq.state, acq.counts, []⟩
  | Outcome.ok m =>
    let m1 : Handle :=
      ⟨m.hid, m.layers, q.size.1, q.size.2, "+init=" ++ pyLower q.srs_code, q.bbox⟩
    let m2 : Handle :=
      match cfg.layers with
      | some allowed =>
        ⟨m1.hid, applyLayerFilter allowed m1.layers, m1.width, m1.height, m1.srs, m1.viewport⟩
      | none => m1
    let s2 : RegistryState :=
      ⟨setHandle acq.state.mapObjs (cachekey ctx mapfile) m2, acq.state.mapLoading⟩
    let counts2 : CallCounts :=
      ⟨acq.counts.ctorCalls, acq.counts.configureCalls + 1,
       acq.counts.drawCalls + 1, acq.counts.clearCacheCalls⟩
    match (match cfg.scale_factor with
           | some _ => oracle.draw m2
           | none => oracle.draw m2) with
    | Except.error e =>
      ⟨Outcome.raised e, s2, counts2,
       [⟨mapfile, q.bbox, q.srs_code, q.size, "500", none⟩]⟩
    | Except.ok _ =>
      match oracle.encode m2 q.format with
      | Except.error e =>
        ⟨Outcome.raised e, s2, counts2,
         [⟨mapfile, q.bbox, q.srs_code, q.size, "500", none⟩]⟩
      | Except.ok data =>
        if data.length = 0 then
          ⟨Outcome.ok ⟨data, q.size, q.format, none⟩, s2, counts2,
           [⟨mapfile, q.bbox, q.srs_code, q.size, "500", none⟩]⟩
        else
          ⟨Outcome.ok ⟨data, q.size, q.format, none⟩, s2, counts2,
           [⟨mapfile, q.bbox, q.srs_code, q.size, "200", some data.length⟩]⟩

/-- MapnikSource.render_mapfile, lines 131-132: run_non_blocking hands the
body to a worker and forwards the worker value or exception to the suspended
caller, so for one call it behaves as the body itself. -/
def render_mapfile (cfg : SrcConfig) (oracle : EngineOracle) (ctx : ExecCtx)
    (s : RegistryState) (mapfile : String) (q : Query) : PipelineResult :=
  _render_mapfile cfg oracle ctx s mapfile q

/-- MapnikSource.render, lines 88-99: resolve the webmercator template
through the external tile grid when present, then call render_mapfile,
optionally under the external serialization lock (a no-op for one caller). -/
def render (cfg : SrcConfig) (oracle : EngineOracle) (ctx : ExecCtx)
    (s : RegistryState) (q : Query) : PipelineResult :=
  let mapfile :=
    if hasWebmercatorTemplate cfg.mapfile then oracle.resolveTemplate cfg.mapfile q
    else cfg.mapfile
  render_mapfile cfg oracle ctx s mapfile q

/-- Guard of lines 74-75: self.res_range and not self.res_range.contains. -/
def outsideResRange (cfg : SrcConfig) (q : Query) : Bool :=
  match cfg.resRangeContains with
  | some c => !(c q)
  | none => false

/-- Guard of line 77: self.coverage and not self.coverage.intersects. -/
def outsideCoverage (cfg : SrcConfig) (q : Query) : Bool :=
  match cfg.coverageIntersects with
  | some c => !(c q)
  | none => false

/-- MapnikSource.get_map, lines 73-86: raise BlankImage when a configured
guard rejects the query; otherwise render, translating a RuntimeError into
SourceError(ex.args[0]) (lines 82-84) and leaving every other exception to
propagate as it is; on success attach self.opacity (line 85). -/
def get_map (cfg : SrcConfig) (oracle : EngineOracle) (ctx : ExecCtx)
    (s : RegistryState) (q : Query) : PipelineResult :=
  if outsideResRange cfg q then
    ⟨Outcome.raised PyExc.blankImage, s, ⟨0, 0, 0, 0⟩, []⟩
  else if outsideCoverage cfg q then
    ⟨Outcome.raised PyExc.blankImage, s, ⟨0, 0, 0, 0⟩, []⟩
  else
    let r := render cfg oracle ctx s q
    match r.outcome with
    | Outcome.raised (PyExc.runtimeError msg) =>
      ⟨Outcome.raised (PyExc.sourceError msg), r.state, r.counts, r.logs⟩
    | Outcome.ok img =>
      ⟨Outcome.ok ⟨img.data, img.size, img.format, cfg.opacity⟩,
       r.state, r.counts, r.logs⟩
    | o => ⟨o, r.state, r.counts, r.logs⟩

/-! Concrete instances used by the witnesses and counterexamples. -/

/-- A constructor that always succeeds with a two-layer handle. -/
def ctorOK : String → Except String Handle :=
  fun _ => Except.ok ⟨7, [⟨"roads"⟩, ⟨"water"⟩], 0, 0, "", (0, 0, 0, 0)⟩

/-- Oracle whose engine calls all succeed. -/
def oracleOK : EngineOracle :=
  ⟨ctorOK, fun _ => Except.ok (), fun _ _ => Except.ok [1, 2, 3], fun mf _ => mf⟩

/-- One execution context: process identity (1,), thread object 1. -/
def ctx1 : ExecCtx := ⟨[1], 1⟩

/-- A second execution context in the same process, different thread. -/
def ctx2 : ExecCtx := ⟨[1], 2⟩

/-- Freshly initialized registry, as after MapnikSource.__init__. -/
def emptyState : RegistryState := ⟨[], []⟩

/-- A concrete query. -/
def q1 : Query := ⟨(0, 0, 10, 10), (256, 256), "EPSG:3857", "png"⟩

/-- Source configured without guards, allow-list or scale factor. -/
def cfgPlain : SrcConfig := ⟨"a.xml", none, none, none, none, none⟩

/-- Source configured with the layer allow-list [roads]. -/
def cfgLayers : SrcConfig := ⟨"a.xml", some ["roads"], none, none, none, none⟩

/-- Source whose resolution-range guard rejects every query. -/
def cfgResBlocked : SrcConfig :=
  ⟨"a.xml", none, some (fun _ => false), none, none, none⟩

/-- The cache key of ctx1 and mapfile a.xml. -/
def key1 : CacheKey := cachekey ctx1 "a.xml"

/-- A loaded two-layer handle. -/
def handle1 : Handle := ⟨7, [⟨"roads"⟩, ⟨"water"⟩], 0, 0, "", (0, 0, 0, 0)⟩

/-- Registry holding a Ready entry for key1: handle stored, event set.  No
execution of the source can produce such a state (line 110 never runs); it
serves to probe how the code behaves at the cache-hit premise. -/
def readyState : RegistryState := ⟨[(key1, handle1)], [(key1, true)]⟩

/-! Theorems. -/

/-- Deleting at the index right after a prefix removes the head of the
suffix. -/
theorem delAt_append (pre : List Layer) (x : Layer) (post : List Layer) :
    delAt (pre ++ x :: post) pre.length = pre ++ post := by
  induction pre with
  | nil => rfl
  | cons a pre ih =>
    show a :: delAt (pre ++ x :: post) pre.length = a :: (pre ++ post)
    rw [ih]

/-- Invariant of the deletion loop of lines 146-151: started on a copy of
the list with the live list equal to an already-kept prefix followed by the
copy and the index at the prefix length, the loop returns the prefix
followed by the filtered copy. -/
theorem layerLoop_eq_filter (allowed : List String) (copy : List Layer) :
    ∀ pre : List Layer,
      layerLoop allowed copy (pre ++ copy) pre.length =
        pre ++ copy.filter (fun l => l.name == "Unkown" || allowed.contains l.name) := by
  induction copy with
  | nil => intro pre; simp [layerLoop]
  | cons l rest ih =>
    intro pre
    cases hp : (l.name == "Unkown" || allowed.contains l.name) with
    | false =>
      have hc : (l.name != "Unkown" && !(allowed.contains l.name)) = true := by
        simp only [bne, ← Bool.not_or, hp]
        rfl
      have hfilter :
          (l :: rest).filter (fun l => l.name == "Unkown" || allowed.contains l.name)
            = rest.filter (fun l => l.name == "Unkown" || allowed.contains l.name) := by
        apply List.filter_cons_of_neg
        rw [hp]
        exact Bool.false_ne_true
      calc layerLoop allowed (l :: rest) (pre ++ l :: rest) pre.length
          = layerLoop allowed rest (delAt (pre ++ l :: rest) pre.length) pre.length := by
            simp only [layerLoop]
            rw [if_pos hc]
        _ = layerLoop allowed rest (pre ++ rest) pre.length := by rw [delAt_append]
        _ = pre ++ rest.filter (fun l => l.name == "Unkown" || allowed.contains l.name) := ih pre
        _ = pre ++ (l :: rest).filter (fun l => l.name == "Unkown" || allowed.contains l.name) := by
            rw [hfilter]
    | true =>
      have hc : ¬((l.name != "Unkown" && !(allowed.contains l.name)) = true) := by
        simp only [bne, ← Bool.not_or, hp]
        exact Bool.false_ne_true
      have hfilter :
          (l :: rest).filter (fun l => l.name == "Unkown" || allowed.contains l.name)
            = l :: rest.filter (fun l => l.name == "Unkown" || allowed.contains l.name) := by
        apply List.filter_cons_of_pos
        exact hp
      calc layerLoop allowed (l :: rest) (pre ++ l :: rest) pre.length
          = layerLoop allowed rest (pre ++ l :: rest) (pre.length + 1) := by
            simp only [layerLoop]
            rw [if_neg hc]
        _ = layerLoop allowed rest ((pre ++ [l]) ++ rest) ((pre ++ [l]).length) := by
            simp
        _ = (pre ++ [l]) ++ rest.filter (fun l => l.name == "Unkown" || allowed.contains l.name) :=
            ih (pre ++ [l])
        _ = pre ++ (l :: rest).filter (fun l => l.name == "Unkown" || allowed.contains l.name) := by
            rw [hfilter]
            simp

/-- C1: the claim states that for a fixed cache key, concurrent callers of
MapnikSource.map_obj trigger at most one constructor invocation per
successful load and all receive the same handle object.  The code refutes
this already for a single caller (N = 1): every acquisition raises
AttributeError at line 102 (Thread has no get_ident attribute) before the
key is built or the constructor runs, so the constructor count is 0, the
registry is untouched, and the caller obtains no handle - with this
constructor a successful load would have been possible. -/
theorem c1_acquire_raises_attributeerror_no_handle :
    map_obj ctorOK ctx1 emptyState "a.xml"
      = ⟨Outcome.raised (PyExc.attributeError "get_ident"), emptyState, ⟨0, 0, 0, 0⟩⟩ := rfl

/-- C2: the claim states that after a construction failure the key is
re-attempted, so that with a constructor that fails once and then succeeds,
the first get_map call fails and the second succeeds.  The code refutes the
scenario even with a constructor that would succeed on every attempt: both
get_map calls raise AttributeError at line 102 of map_obj - the constructor
is never reached, nothing is ever stored, removed or signalled (third
conjunct: the registry stays empty), and the second call fails identically
instead of succeeding. -/
theorem c2_second_call_never_succeeds :
    (get_map cfgPlain oracleOK ctx1 emptyState q1).outcome
      = Outcome.raised (PyExc.attributeError "get_ident") ∧
    (get_map cfgPlain oracleOK ctx1
        (get_map cfgPlain oracleOK ctx1 emptyState q1).state q1).outcome
      = Outcome.raised (PyExc.attributeError "get_ident") ∧
    (get_map cfgPlain oracleOK ctx1 emptyState q1).state = emptyState :=
  ⟨rfl, rfl, rfl⟩

/-- C3: the claim states that constructing a new MapnikSource never resets
the shared handle table and every Ready entry stays present.  The code
refutes it: __init__ (lines 61-64) rebinds the module globals to fresh
empty dicts, so a Ready entry present before a second construction is gone
afterwards. -/
theorem c3_init_resets_registry :
    lookupHandle readyState.mapObjs key1 = some handle1 ∧
    lookupEvent readyState.mapLoading key1 = some true ∧
    (mapnikSource_init readyState).mapObjs = [] ∧
    lookupHandle (mapnikSource_init readyState).mapObjs key1 = none :=
  ⟨rfl, rfl, rfl, rfl⟩

/-- C4: the claim states that a render with a layer allow-list completes
while leaving the stored layer set of the cached handle unchanged.  The
code refutes the premise and the mechanism: no filtered render ever
completes - the call raises AttributeError from line 102 of map_obj and the
registry is left as it was (first two conjuncts) - and the filter the
source would apply (lines 147-151) deletes from the shared layer list in
place rather than using a transient view: the loop provably removes the
non-allow-listed layer from the list object (third conjunct). -/
theorem c4_filtered_render_unreachable_filter_deletes_in_place :
    (get_map cfgLayers oracleOK ctx1 readyState q1).outcome
      = Outcome.raised (PyExc.attributeError "get_ident") ∧
    (get_map cfgLayers oracleOK ctx1 readyState q1).state = readyState ∧
    applyLayerFilter ["roads"] [⟨"roads"⟩, ⟨"water"⟩] = [⟨"roads"⟩] :=
  ⟨rfl, rfl, rfl⟩

/-- C5: the claim states that calls agreeing on execution context and
resource identifier compute equal keys and share one handle, while calls
differing in either compute different keys and obtain independent handles.
The code implements neither half: the key of line 104 is never computed -
line 102 raises AttributeError first - and every acquisition fails
identically, across different execution contexts, resources and registry
contents, so no caller ever obtains a handle to share or to isolate. -/
theorem c5_no_key_no_handle_any_context :
    map_obj ctorOK ctx1 emptyState "a.xml"
      = ⟨Outcome.raised (PyExc.attributeError "get_ident"), emptyState, ⟨0, 0, 0, 0⟩⟩ ∧
    map_obj ctorOK ctx2 emptyState "a.xml"
      = ⟨Outcome.raised (PyExc.attributeError "get_ident"), emptyState, ⟨0, 0, 0, 0⟩⟩ ∧
    map_obj ctorOK ctx1 readyState "b.xml"
      = ⟨Outcome.raised (PyExc.attributeError "get_ident"), readyState, ⟨0, 0, 0, 0⟩⟩ :=
  ⟨rfl, rfl, rfl⟩

/-- C6: the claim states that every failure under get_map surfaces only as
EmptyResult or SourceError, engine exceptions being translated at the
boundary.  The code refutes it: lines 82-84 catch RuntimeError only, and
every query passing the guards raises AttributeError out of line 102 of
map_obj, which crosses get_map untranslated - neither an EmptyResult nor a
SourceError (and the engine is never even invoked to produce a translatable
error). -/
theorem c6_attributeerror_escapes_get_map :
    (get_map cfgPlain oracleOK ctx1 readyState q1).outcome
      = Outcome.raised (PyExc.attributeError "get_ident") ∧
    (get_map cfgPlain oracleOK ctx1 readyState q1).counts = ⟨0, 0, 0, 0⟩ :=
  ⟨rfl, rfl⟩

/-- C7: when the configured resolution-range guard rejects the query, or the
configured coverage guard does not intersect it, get_map raises BlankImage
with the registry untouched, zero engine invocations of any kind
(construction, configure, draw, clear_cache) and no log record - the engine
binding is never entered. -/
theorem c7_guard_short_circuit (cfg : SrcConfig) (oracle : EngineOracle)
    (ctx : ExecCtx) (s : RegistryState) (q : Query)
    (h : (∃ c, cfg.resRangeContains = some c ∧ c q = false) ∨
         (∃ c, cfg.coverageIntersects = some c ∧ c q = false)) :
    get_map cfg oracle ctx s q
      = ⟨Outcome.raised PyExc.blankImage, s, ⟨0, 0, 0, 0⟩, []⟩ := by
  cases hr : outsideResRange cfg q with
  | true => simp [get_map, hr]
  | false =>
    have hcov : outsideCoverage cfg q = true := by
      rcases h with ⟨c, hc, hq⟩ | ⟨c, hc, hq⟩
      · exfalso
        simp only [outsideResRange, hc] at hr
        simp [hq] at hr
      · simp only [outsideCoverage, hc]
        simp [hq]
    simp [get_map, hr, hcov]

/-- Witness for C7 at a concrete rejecting resolution-range guard. -/
theorem c7_guard_short_circuit_witness :
    get_map cfgResBlocked oracleOK ctx1 emptyState q1
      = ⟨Outcome.raised PyExc.blankImage, emptyState, ⟨0, 0, 0, 0⟩, []⟩ :=
  c7_guard_short_circuit cfgResBlocked oracleOK ctx1 emptyState q1
    (Or.inl ⟨fun _ => false, rfl, rfl⟩)

/-- C9: the in-place deletion loop of lines 145-151 keeps exactly the layers
whose name is Unkown or lies in the allow-list: a layer named Unkown is
always retained even when absent from the allow-list, and only layers whose
name differs from Unkown and is absent from the allow-list are removed. -/
theorem c9_unkown_layer_always_retained (allowed : List String) (ls : List Layer) :
    applyLayerFilter allowed ls =
      ls.filter (fun l => l.name == "Unkown" || allowed.contains l.name) := by
  simpa [applyLayerFilter] using layerLoop_eq_filter allowed ls []

/-- C10 counterexample: the claim states that an acquisition whose key is
present in the loading table with its event set waits and then invokes
mapnik.clear_cache exactly once before returning the cached handle.  At
exactly such a state (readyState holds key1 with a set event and a stored
handle, and ctx1 with mapfile a.xml addresses key1) the code invokes
clear_cache zero times and returns no handle: it raises AttributeError at
line 102 before ever reading the loading table. -/
theorem c10_hit_state_counterexample :
    (map_obj ctorOK ctx1 readyState "a.xml").counts.clearCacheCalls = 0 ∧
    (map_obj ctorOK ctx1 readyState "a.xml").outcome
      = Outcome.raised (PyExc.attributeError "get_ident") := ⟨rfl, rfl⟩

/-- C10 amended: no handle acquisition, whatever the registry state, the
execution context, the mapfile or the constructor, ever invokes
mapnik.clear_cache or returns a handle: every map_obj call raises
AttributeError at line 102 and leaves the registry unchanged; the
wait/clear_cache/return sequence of lines 125-129 and the construction path
are both unreachable. -/
theorem c10_clear_cache_never_invoked (ctor : String → Except String Handle)
    (ctx : ExecCtx) (s : RegistryState) (mapfile : String) :
    map_obj ctor ctx s mapfile
      = ⟨Outcome.raised (PyExc.attributeError "get_ident"), s, ⟨0, 0, 0, 0⟩⟩ := rfl

/-- C8: the claim states that every invocation of _render_mapfile emits
exactly one log record, on success and on failure alike.  The code refutes
it: line 137 acquires the handle before the try/finally of lines 144-168
and that acquisition raises AttributeError on every call, so the worker
emits zero log_request records whatever the registry holds - shown on a
fresh registry (full result: failure, state unchanged, no engine call, no
log) and on a registry with a Ready entry. -/
theorem c8_render_worker_never_logs :
    _render_mapfile cfgPlain oracleOK ctx1 emptyState "a.xml" q1
      = ⟨Outcome.raised (PyExc.attributeError "get_ident"), emptyState,
         ⟨0, 0, 0, 0⟩, []⟩ ∧
    (_render_mapfile cfgPlain oracleOK ctx1 readyState "a.xml" q1).logs = [] :=
  ⟨rfl, rfl⟩

end MapnikPy
